import Mathlib

/-!
Shallow embedding of `src/internal/override_symbol.c` (redpill-lkm), with
theorems settling the frozen claims about that file.

Conventions of the embedding:
* machine words (`unsigned long`, pointers) are natural numbers; every kernel
  virtual address reaching this code is nonzero and lies well below
  `ULONG_MAX - PAGE_SIZE`, a range on which the unsigned C arithmetic used here
  (page rounding, `+ 8 * n` cell offsets) agrees with `Nat` arithmetic;
* byte memory, and the word-granular view used for the syscall table, are total
  maps `Nat → Nat`; the page-protection state maps a page base address to the
  value of the RW bit of its page-table entry (`true` = writable);
* `kallsyms_lookup_name` is an environment map `String → Nat` (`0` = missing);
* the per-instance spinlock only serializes the write in this single-threaded
  embedding and is dropped; `kmalloc` failure (`-ENOMEM`) is not modelled;
* C functions returning `ERR_PTR` become `Option`; `int` status codes become
  `Int` (`-EFAULT`, `-EINVAL`); `NULL` pointers stored in words become `0`;
* the syscall-table scan loop iterates a wrapping 64-bit counter and need not
  terminate; it and the functions that may invoke it therefore take a fuel
  argument bounding the number of loop iterations observed, and return
  `none` when the call has not returned within that many iterations (a
  result `some r` is fuel-independent once reached).
-/

namespace RedPill

/-- `PAGE_SIZE` on the target architecture (x86_64). -/
def PAGE_SIZE : Nat := 4096

/-- `OVERRIDE_JUMP_SIZE` from the header: length of the jump template. -/
def OVERRIDE_JUMP_SIZE : Nat := 12

/-- `JUMP_ADDR_POS` (source line 99): the address operand starts at byte 2. -/
def JUMP_ADDR_POS : Nat := 2

/-- `ULONG_MAX` for 64-bit `unsigned long`. -/
def ULONG_MAX : Nat := 2 ^ 64 - 1

/-- Byte- or word-addressed memory. -/
abbrev Mem : Type := Nat → Nat

/-- Page-protection state: page base address ↦ RW bit of its page-table entry. -/
abbrev Prot : Type := Nat → Bool

/-- `PAGE_ALIGN(addr)`: round `addr` up to the next page boundary. -/
def PAGE_ALIGN (addr : Nat) : Nat := (addr + PAGE_SIZE - 1) / PAGE_SIZE * PAGE_SIZE

/-- `PAGE_ALIGN_BOTTOM(addr) = PAGE_ALIGN(addr) - PAGE_SIZE` (source line 105). -/
def PAGE_ALIGN_BOTTOM (addr : Nat) : Nat := PAGE_ALIGN addr - PAGE_SIZE

/-- The loop shared by `set_mem_rw` and `set_mem_ro` (source lines 142-145 and
163-166): starting from `addr = PAGE_ALIGN_BOTTOM(vaddr)` and while
`addr <= vaddr`, set the RW bit of the page-table entry of the page at `addr`
to `w` and advance by `PAGE_SIZE`.  The recursion is driven by a fuel
argument; since `addr` grows by `PAGE_SIZE ≥ 1` on every iteration and the
loop runs only while `addr ≤ vaddr`, any fuel `≥ vaddr + 1` is ample and the
function then computes exactly the C loop. -/
def set_pages (w : Bool) : Nat → Nat → Nat → Prot → Prot
  | 0, _, _, p => p
  | fuel + 1, addr, vaddr, p =>
    if addr ≤ vaddr then
      set_pages w fuel (addr + PAGE_SIZE) vaddr (fun a => if a = addr then w else p a)
    else p

/-- `set_mem_rw(vaddr, len)` (source lines 134-148).  Note that, exactly as in
the source, the loop condition is `addr <= vaddr`: the `len` parameter is
received but never read by the loop. -/
def set_mem_rw (vaddr _len : Nat) (p : Prot) : Prot :=
  set_pages true (vaddr + 1) (PAGE_ALIGN_BOTTOM vaddr) vaddr p

/-- `set_mem_ro(vaddr, len)` (source lines 155-169); same loop, clears the bit. -/
def set_mem_ro (vaddr _len : Nat) (p : Prot) : Prot :=
  set_pages false (vaddr + 1) (PAGE_ALIGN_BOTTOM vaddr) vaddr p

/-- Read `n` bytes of memory starting at `p` (source `memcpy(dst, src, n)`,
source side). -/
def readBytes (m : Mem) : Nat → Nat → List Nat
  | _, 0 => []
  | p, n + 1 => m p :: readBytes m (p + 1) n

/-- Write the byte list `bs` to memory starting at `p` (source `memcpy`,
destination side). -/
def writeBytes (m : Mem) : Nat → List Nat → Mem
  | _, [] => m
  | p, b :: bs => writeBytes (fun a => if a = p then b else m a) (p + 1) bs

/-- `jump_tpl` (source lines 100-103): `MOVQ imm64, %rax; JMP *%rax`. -/
def jump_tpl : List Nat := [0x48, 0xb8, 0, 0, 0, 0, 0, 0, 0, 0, 0xff, 0xe0]

/-- The little-endian byte image of the x86_64 store
`*(long *)&buf[JUMP_ADDR_POS] = (long)ptr`. -/
def leBytes8 (v : Nat) : List Nat :=
  [v % 256, v / 256 % 256, v / 256 ^ 2 % 256, v / 256 ^ 3 % 256,
   v / 256 ^ 4 % 256, v / 256 ^ 5 % 256, v / 256 ^ 6 % 256, v / 256 ^ 7 % 256]

/-- The 12 trampoline bytes produced by `prepare_trampoline` (source lines
266-268) and `override_symbol` (lines 183-185): copy `jump_tpl` into a buffer,
then store the 64-bit target at offset `JUMP_ADDR_POS`, and read the buffer
back. -/
def build_jump (target : Nat) : List Nat :=
  readBytes
    (writeBytes (writeBytes (fun _ => 0) 0 jump_tpl) JUMP_ADDR_POS
      (leBytes8 (target % 2 ^ 64)))
    0 OVERRIDE_JUMP_SIZE

/-- `struct override_symbol_inst` (source lines 202-213); the spinlock fields
are dropped in this single-threaded embedding. -/
structure override_symbol_inst where
  org_sym_ptr : Nat
  new_sym_ptr : Nat
  org_sym_code : List Nat
  trampoline : List Nat
  installed : Bool
  has_trampoline : Bool
  mem_protected : Bool
  name : String

/-- State touched by the symbol-override operations: the symbol table, byte
memory and the page-protection map. -/
structure SymState where
  kallsyms : String → Nat
  mem : Mem
  prot : Prot

/-- `get_ov_symbol_instance` (source lines 220-245): resolve the symbol, fail
with `ERR_PTR` (here `none`) when `kallsyms_lookup_name` returns 0, otherwise
produce a fresh instance with `installed = false`, `has_trampoline = false`,
`mem_protected = true`. -/
def get_ov_symbol_instance (st : SymState) (symbol_name : String) (new_sym_ptr : Nat) :
    Option override_symbol_inst :=
  let ptr := st.kallsyms symbol_name
  if ptr = 0 then none
  else some
    { org_sym_ptr := ptr
      new_sym_ptr := new_sym_ptr
      org_sym_code := []
      trampoline := []
      installed := false
      has_trampoline := false
      mem_protected := true
      name := symbol_name }

/-- `enable_mem_protection` (source lines 247-251).  N.B. the source body calls
`set_mem_rw`, not `set_mem_ro`, while setting `mem_protected = true`. -/
def enable_mem_protection (sym : override_symbol_inst) (st : SymState) :
    override_symbol_inst × SymState :=
  ({ sym with mem_protected := true },
   { st with prot := set_mem_rw sym.org_sym_ptr OVERRIDE_JUMP_SIZE st.prot })

/-- `disable_mem_protection` (source lines 253-257). -/
def disable_mem_protection (sym : override_symbol_inst) (st : SymState) :
    override_symbol_inst × SymState :=
  ({ sym with mem_protected := false },
   { st with prot := set_mem_rw sym.org_sym_ptr OVERRIDE_JUMP_SIZE st.prot })

/-- `prepare_trampoline` (source lines 262-274): generate the trampoline bytes
and back up the original code at the target address. -/
def prepare_trampoline (sym : override_symbol_inst) (st : SymState) : override_symbol_inst :=
  { sym with
    trampoline := build_jump sym.new_sym_ptr
    org_sym_code := readBytes st.mem sym.org_sym_ptr OVERRIDE_JUMP_SIZE
    has_trampoline := true }

/-- `__enable_symbol_override` (source lines 276-294).  The C function always
returns 0; the third component counts the `memcpy` writes this call performed
to the target memory (the locked trampoline install). -/
def enable_symbol_override (sym : override_symbol_inst) (st : SymState) :
    override_symbol_inst × SymState × Nat :=
  if sym.installed then (sym, st, 0)
  else
    let sym1 := if sym.has_trampoline then sym else prepare_trampoline sym st
    let p := if sym1.mem_protected then disable_mem_protection sym1 st else (sym1, st)
    ({ p.1 with installed := true },
     { p.2 with mem := writeBytes p.2.mem p.1.org_sym_ptr p.1.trampoline }, 1)

/-- `__disable_symbol_override` (source lines 296-311); third component counts
the writes to the target memory (the locked original-code restore). -/
def disable_symbol_override (sym : override_symbol_inst) (st : SymState) :
    override_symbol_inst × SymState × Nat :=
  if !sym.installed then (sym, st, 0)
  else
    let p := if sym.mem_protected then disable_mem_protection sym st else (sym, st)
    ({ p.1 with installed := false },
     { p.2 with mem := writeBytes p.2.mem p.1.org_sym_ptr p.1.org_sym_code }, 1)

/-- `symbol_is_overridden` (source lines 318-321):
`return likely(sym) && sym->installed;` with a `NULL` handle modelled as
`none`. -/
def symbol_is_overridden : Option override_symbol_inst → Bool
  | none => false
  | some sym => sym.installed

/-- `override_symbol_ng` (source lines 323-343): create the instance, install
the trampoline, then call `enable_mem_protection`; `none` models the `ERR_PTR`
failure path. -/
def override_symbol_ng (st : SymState) (name : String) (new_sym_ptr : Nat) :
    Option (override_symbol_inst × SymState) :=
  match get_ov_symbol_instance st name new_sym_ptr with
  | none => none
  | some sym =>
    let r := enable_symbol_override sym st
    some (enable_mem_protection r.1 r.2.1)

/-- `restore_symbol_ng` (source lines 345-360): uninstall, then
`enable_mem_protection`, then free the instance; the C function returns the
(always zero) status of `__disable_symbol_override`, we return the final
state. -/
def restore_symbol_ng (sym : override_symbol_inst) (st : SymState) : SymState :=
  let r := disable_symbol_override sym st
  (enable_mem_protection r.1 r.2.1).2

/-- `__NR_read` on x86_64. -/
def NR_read : Nat := 0

/-- `__NR_write` on x86_64. -/
def NR_write : Nat := 1

/-- `__NR_open` on x86_64. -/
def NR_open : Nat := 2

/-- `__NR_close` on x86_64. -/
def NR_close : Nat := 3

/-- `__NR_syscall_max` from `asm/asm-offsets.h`; its concrete value is
irrelevant to every proof below. -/
def NR_syscall_max : Nat := 313

/-- `NR_syscalls = __NR_syscall_max + 1`. -/
def NR_syscalls : Nat := NR_syscall_max + 1

/-- `EFAULT`. -/
def EFAULT : Int := 14

/-- `EINVAL`. -/
def EINVAL : Int := 22

/-- Process-wide state of the syscall path: symbol table, word-granular memory
(the value of the `unsigned long` stored at a byte address), the cached
`syscall_table_ptr` (source line 375; `0` = `NULL`), the
`overridden_syscall[]` registry (source line 463; `0` = `NULL` entry) and the
protection map. -/
structure SysState where
  kallsyms : String → Nat
  mem : Mem
  syscall_table_ptr : Nat
  overridden_syscall : Nat → Nat
  prot : Prot

/-- Byte address of `&syscall_table_ptr[n]`: `unsigned long` cells are 8 bytes
wide. -/
def table_cell (tp n : Nat) : Nat := tp + 8 * n

/-- The candidate test of the fallback scan (source lines 447-452): the four
designated slots of a candidate table at `i` simultaneously equal the four
resolved handler addresses. -/
def sct_match (m : Mem) (cl op rd wr i : Nat) : Bool :=
  m (table_cell i NR_close) == cl && m (table_cell i NR_open) == op &&
  m (table_cell i NR_read) == rd && m (table_cell i NR_write) == wr

/-- The scan loop (source lines 444-456): `for (; i < ULONG_MAX; i += 8)` over
a wrapping 64-bit `unsigned long` counter, so the increment is
`(i + 8) % 2 ^ 64` and the guard fails only when `i` is exactly
`ULONG_MAX = 2 ^ 64 - 1`.  One fuel unit is one iteration: `some (some i)`
means the candidate at `i` matched, `some none` means the guard failed and
the loop fell through to the table-not-found exit (source lines 458-460),
and `none` means the loop has not returned within `fuel` iterations. -/
def scan_loop (m : Mem) (cl op rd wr : Nat) : Nat → Nat → Option (Option Nat)
  | 0, _ => none
  | fuel + 1, i =>
    if i < ULONG_MAX then
      if sct_match m cl op rd wr i then some (some i)
      else scan_loop m cl op rd wr fuel ((i + 8) % 2 ^ 64)
    else some none

/-- The scan's start address (source lines 437-440): the lowest of the four
resolved handler addresses. -/
def scan_start (cl op rd wr : Nat) : Nat :=
  let i1 := if op < cl then op else cl
  let i2 := if rd < i1 then rd else i1
  if wr < i2 then wr else i2

/-- `find_sys_call_table` (source lines 394-461): direct `kallsyms` lookup,
else resolve the four probe handlers (failing with `-EFAULT` if any is
missing), else scan upward from the lowest handler address; if the scan's
guard ever fails the function resets `syscall_table_ptr` to `NULL` and fails
with `-EFAULT`.  The result is `none` when the scan has not returned within
`fuel` iterations. -/
def find_sys_call_table (fuel : Nat) (st : SysState) : Option (Int × SysState) :=
  let sct := st.kallsyms ("sys_call_table")
  if sct ≠ 0 then some (0, { st with syscall_table_ptr := sct })
  else
    let cl := st.kallsyms ("sys_close")
    let op := st.kallsyms ("sys_open")
    let rd := st.kallsyms ("sys_read")
    let wr := st.kallsyms ("sys_write")
    if cl = 0 ∨ op = 0 ∨ rd = 0 ∨ wr = 0 then
      some (-EFAULT, { st with syscall_table_ptr := 0 })
    else
      match scan_loop st.mem cl op rd wr fuel (scan_start cl op rd wr) with
      | some (some i) => some (0, { st with syscall_table_ptr := i })
      | some none => some (-EFAULT, { st with syscall_table_ptr := 0 })
      | none => none

/-- The body of `override_syscall` after the locate step (source lines
475-501): bounds-check the number, capture the registry entry only if it is
still `NULL`, report `overridden_syscall[num]` through `*org_sysc_ptr`
(modelled as the `Option Nat` component, `none` on failure), and swap the
table cell under an unprotect/write/protect bracket.  This part always
terminates. -/
def override_syscall_body (st : SysState) (syscall_num new_sysc_ptr : Nat) :
    Int × Option Nat × SysState :=
  if NR_syscall_max < syscall_num then (-EINVAL, none, st)
  else
    let tp := st.syscall_table_ptr
    let reg : Nat → Nat :=
      if st.overridden_syscall syscall_num ≠ 0 then st.overridden_syscall
      else fun m =>
        if m = syscall_num then st.mem (table_cell tp syscall_num)
        else st.overridden_syscall m
    let prot1 := set_mem_rw (table_cell tp syscall_num) 8 st.prot
    let mem1 : Mem := fun a =>
      if a = table_cell tp syscall_num then new_sysc_ptr else st.mem a
    let prot2 := set_mem_ro (table_cell tp syscall_num) 8 prot1
    (0, some (reg syscall_num),
     { st with overridden_syscall := reg, mem := mem1, prot := prot2 })

/-- `override_syscall` (source lines 464-502): locate the table first if it is
not cached — returning the locator's `-EFAULT` when location fails, and not
returning at all (`none`) when the locator's scan does not — then run the
terminating remainder. -/
def override_syscall (fuel : Nat) (st0 : SysState) (syscall_num new_sysc_ptr : Nat) :
    Option (Int × Option Nat × SysState) :=
  if st0.syscall_table_ptr = 0 then
    match find_sys_call_table fuel st0 with
    | none => none
    | some pre =>
      if pre.1 ≠ 0 then some (pre.1, none, pre.2)
      else some (override_syscall_body pre.2 syscall_num new_sysc_ptr)
  else some (override_syscall_body st0 syscall_num new_sysc_ptr)

/-- `restore_syscall` (source lines 504-535): fail `-EFAULT` when the table
was never found, `-EINVAL` on an out-of-bounds number or a never-overridden
entry, else write the registry entry back into the cell.  N.B. the source's
second protection call (line 530) is `set_mem_rw`, like the first. -/
def restore_syscall (st : SysState) (syscall_num : Nat) : Int × SysState :=
  if st.syscall_table_ptr = 0 then (-EFAULT, st)
  else
    if NR_syscall_max < syscall_num then (-EINVAL, st)
    else if st.overridden_syscall syscall_num = 0 then (-EINVAL, st)
    else
      let tp := st.syscall_table_ptr
      let prot1 := set_mem_rw (table_cell tp syscall_num) 8 st.prot
      let mem1 : Mem := fun a =>
        if a = table_cell tp syscall_num then st.overridden_syscall syscall_num
        else st.mem a
      let prot2 := set_mem_rw (table_cell tp syscall_num) 8 prot1
      (0, { st with mem := mem1, prot := prot2 })

/-- Concrete environment for exercising the symbol path: one resolvable
symbol at the (page-interior) address 8202, all pages initially
write-protected. -/
def stC1 : SymState :=
  { kallsyms := fun s => if s = "verify_target" then 8202 else 0
    mem := fun _ => 0
    prot := fun _ => false }

/-- A currently-installed instance for the same address, as it exists right
before a `restore_symbol_ng` call. -/
def symC1r : override_symbol_inst :=
  { org_sym_ptr := 8202
    new_sym_ptr := 5000
    org_sym_code := [144, 144, 144, 144, 144, 144, 144, 144, 144, 144, 144, 144]
    trampoline := build_jump 5000
    installed := true
    has_trampoline := true
    mem_protected := true
    name := "verify_target" }

/-- Concrete syscall state with a located table at 16384 and syscall 1 already
overridden (registry entry 42), all pages write-protected. -/
def stSysC1 : SysState :=
  { kallsyms := fun _ => 0
    mem := fun _ => 7
    syscall_table_ptr := 16384
    overridden_syscall := fun m => if m = 1 then 42 else 0
    prot := fun _ => false }

/-- Concrete syscall state for the registry claims: table cached at 16384,
slot 1 holds the handler 111, registry empty. -/
def stC3w : SysState :=
  { kallsyms := fun _ => 0
    mem := fun a => if a = 16392 then 111 else 0
    syscall_table_ptr := 16384
    overridden_syscall := fun _ => 0
    prot := fun _ => false }

/-- Concrete symbol state for the round-trip claim: symbol at 100, memory
bytes pairwise distinct near the symbol. -/
def stC4w : SymState :=
  { kallsyms := fun s => if s = "tgt" then 100 else 0
    mem := fun a => a % 251
    prot := fun _ => false }

/-- The instance `get_ov_symbol_instance` produces on `stC4w`. -/
def symC4w : override_symbol_inst :=
  { org_sym_ptr := 100
    new_sym_ptr := 77
    org_sym_code := []
    trampoline := []
    installed := false
    has_trampoline := false
    mem_protected := true
    name := "tgt" }

/-- Concrete syscall state for the locator claim: `sys_call_table` itself is
unresolvable, the four probe handlers resolve to 8-aligned addresses, and no
address in memory passes the four-slot candidate test. -/
def stC5w : SysState :=
  { kallsyms := fun s =>
      if s = "sys_close" then 4096
      else if s = "sys_open" then 4104
      else if s = "sys_read" then 4112
      else if s = "sys_write" then 4120
      else 0
    mem := fun _ => 0
    syscall_table_ptr := 0
    overridden_syscall := fun _ => 0
    prot := fun _ => false }

/-- Concrete syscall state for the returned-pointer claims: same shape as
`stC3w`. -/
def stC6w : SysState :=
  { kallsyms := fun _ => 0
    mem := fun a => if a = 16392 then 111 else 0
    syscall_table_ptr := 16384
    overridden_syscall := fun _ => 0
    prot := fun _ => false }

/-- Concrete syscall state for the bounds-check claims: table never located,
nothing resolvable. -/
def stC7w : SysState :=
  { kallsyms := fun _ => 0
    mem := fun _ => 0
    syscall_table_ptr := 0
    overridden_syscall := fun _ => 0
    prot := fun _ => false }

/-- Concrete syscall state with a cached table, for the amended bounds-check
claim. -/
def stC7c : SysState :=
  { kallsyms := fun _ => 0
    mem := fun _ => 0
    syscall_table_ptr := 16384
    overridden_syscall := fun _ => 0
    prot := fun _ => false }

/-- A freshly created (never enabled) instance for the idempotence claim. -/
def symC9 : override_symbol_inst :=
  { org_sym_ptr := 8202
    new_sym_ptr := 5000
    org_sym_code := []
    trampoline := []
    installed := false
    has_trampoline := false
    mem_protected := true
    name := "verify_target" }

/-- An installed instance for the disable half of the idempotence claim. -/
def symC9d : override_symbol_inst :=
  { org_sym_ptr := 8202
    new_sym_ptr := 5000
    org_sym_code := [144, 144, 144, 144, 144, 144, 144, 144, 144, 144, 144, 144]
    trampoline := build_jump 5000
    installed := true
    has_trampoline := true
    mem_protected := false
    name := "verify_target" }

/-- Symbol-path state for the idempotence witness. -/
def stC9w : SymState :=
  { kallsyms := fun _ => 0
    mem := fun _ => 0
    prot := fun _ => false }

/- ------------------------------------------------------------------ -/
/- Helper lemmas about the memory primitives.                          -/
/- ------------------------------------------------------------------ -/

/-- `writeBytes` never touches addresses below its start. -/
theorem writeBytes_lt (bs : List Nat) (m : Mem) (p a : Nat) (h : a < p) :
    writeBytes m p bs a = m a := by
  induction bs generalizing m p with
  | nil => rfl
  | cons b bs ih =>
    simp only [writeBytes]
    rw [ih _ (p + 1) (Nat.lt_succ_of_lt h)]
    simp [Nat.ne_of_lt h]

/-- Reading back a block just written returns exactly that block. -/
theorem readBytes_writeBytes (bs : List Nat) (m : Mem) (p : Nat) :
    readBytes (writeBytes m p bs) p bs.length = bs := by
  induction bs generalizing m p with
  | nil => rfl
  | cons b bs ih =>
    simp only [writeBytes, List.length_cons, readBytes]
    rw [writeBytes_lt _ _ _ _ (Nat.lt_succ_self p), ih]
    simp

/-- `readBytes` returns exactly the requested number of bytes. -/
theorem readBytes_length (m : Mem) : ∀ (n p : Nat), (readBytes m p n).length = n := by
  intro n
  induction n with
  | zero => intro p; rfl
  | succ k ih => intro p; simp [readBytes, ih]

/-- Reading back a block whose length is `n` returns that block. -/
theorem readBytes_writeBytes_of_length (bs : List Nat) (m : Mem) (p n : Nat)
    (h : bs.length = n) : readBytes (writeBytes m p bs) p n = bs := by
  subst h
  exact readBytes_writeBytes bs m p

/- ------------------------------------------------------------------ -/
/- Helper lemmas about the syscall path.                               -/
/- ------------------------------------------------------------------ -/

/-- With a cached (nonzero) table pointer, `override_syscall` skips the
locate step and returns the terminating body's result, for every fuel. -/
theorem override_syscall_cached (fuel : Nat) (st : SysState) (n newp : Nat)
    (htp : st.syscall_table_ptr ≠ 0) :
    override_syscall fuel st n newp = some (override_syscall_body st n newp) := by
  unfold override_syscall
  simp [htp]

/-- The body keeps the cached table pointer. -/
theorem override_syscall_body_tp (st : SysState) (n newp : Nat)
    (hn : n ≤ NR_syscall_max) :
    (override_syscall_body st n newp).2.2.syscall_table_ptr
      = st.syscall_table_ptr := by
  unfold override_syscall_body
  simp [Nat.not_lt.mpr hn]

/-- First override of a number: the registry captures the table's current
cell value. -/
theorem override_syscall_body_reg_fresh (st : SysState) (n newp : Nat)
    (hn : n ≤ NR_syscall_max) (hreg : st.overridden_syscall n = 0) :
    (override_syscall_body st n newp).2.2.overridden_syscall n
      = st.mem (table_cell st.syscall_table_ptr n) := by
  unfold override_syscall_body
  simp [Nat.not_lt.mpr hn, hreg]

/-- Later override of a number: the registry entry is left untouched. -/
theorem override_syscall_body_reg_kept (st : SysState) (n newp : Nat)
    (hn : n ≤ NR_syscall_max) (hreg : st.overridden_syscall n ≠ 0) :
    (override_syscall_body st n newp).2.2.overridden_syscall n
      = st.overridden_syscall n := by
  unfold override_syscall_body
  simp [Nat.not_lt.mpr hn, hreg]

/-- First override of a number: the reported original pointer is the table's
current cell value. -/
theorem override_syscall_body_out_fresh (st : SysState) (n newp : Nat)
    (hn : n ≤ NR_syscall_max) (hreg : st.overridden_syscall n = 0) :
    (override_syscall_body st n newp).2.1
      = some (st.mem (table_cell st.syscall_table_ptr n)) := by
  unfold override_syscall_body
  simp [Nat.not_lt.mpr hn, hreg]

/-- Later override of a number: the reported original pointer is the stored
registry entry, not the table's current cell value. -/
theorem override_syscall_body_out_kept (st : SysState) (n newp : Nat)
    (hn : n ≤ NR_syscall_max) (hreg : st.overridden_syscall n ≠ 0) :
    (override_syscall_body st n newp).2.1 = some (st.overridden_syscall n) := by
  unfold override_syscall_body
  simp [Nat.not_lt.mpr hn, hreg]

/-- `restore_syscall` writes the registry entry back into the table cell. -/
theorem restore_syscall_mem (st : SysState) (n : Nat)
    (htp : st.syscall_table_ptr ≠ 0) (hn : n ≤ NR_syscall_max)
    (hreg : st.overridden_syscall n ≠ 0) :
    (restore_syscall st n).2.mem (table_cell st.syscall_table_ptr n)
      = st.overridden_syscall n := by
  unfold restore_syscall
  simp [htp, Nat.not_lt.mpr hn, hreg]

/-- When no candidate ever matches and the counter's residue mod 8 is not 7,
the scan loop never returns: the guard `i < ULONG_MAX` can only fail at
`i = 2 ^ 64 - 1 ≡ 7 (mod 8)`, the wrapping increment preserves the residue
mod 8, so for every number of iterations the loop is still running. -/
theorem scan_loop_never_returns (m : Mem) (cl op rd wr : Nat)
    (h : ∀ j, sct_match m cl op rd wr j = false) :
    ∀ (fuel i : Nat), i < 2 ^ 64 → i % 8 ≠ 7 →
      scan_loop m cl op rd wr fuel i = none := by
  intro fuel
  induction fuel with
  | zero => intro i _ _; rfl
  | succ f ih =>
    intro i hi hr
    have hlt : i < ULONG_MAX := by
      unfold ULONG_MAX
      omega
    have hstep : (i + 8) % 2 ^ 64 % 8 = i % 8 := by
      rw [Nat.mod_mod_of_dvd _ (by norm_num : (8 : Nat) ∣ 2 ^ 64)]
      omega
    simp only [scan_loop, if_pos hlt, h i, Bool.false_eq_true, if_false]
    exact ih ((i + 8) % 2 ^ 64) (Nat.mod_lt _ (by norm_num)) (by omega)

/- ------------------------------------------------------------------ -/
/- Claim theorems.                                                     -/
/- ------------------------------------------------------------------ -/

/-- Claim C1, code-bug evidence: the public operations do not leave the
patched memory read-only.  `enable_mem_protection` (source line 249) calls
`set_mem_rw`, and the trailing protection call of `restore_syscall` (source
line 530) is `set_mem_rw` as well, so after `override_symbol_ng`,
`restore_symbol_ng` and `restore_syscall` return, the RW bit of the written
page is set (memory writable), contrary to the claim and to the source's own
comments at lines 335 and 353. -/
theorem c1_protection_left_disabled :
    (override_symbol_ng stC1 ("verify_target") 5000).map (fun r => r.2.prot 8192)
      = some true ∧
    (restore_symbol_ng symC1r stC1).prot 8192 = true ∧
    (restore_syscall stSysC1 1).2.prot 16384 = true := by
  refine ⟨rfl, rfl, rfl⟩

/-- Claim C2, code-bug evidence: for address 4090 with length 12 the written
range `[4090, 4102)` crosses the page boundary at 4096, so the claim requires
both page 0 and page 4096 to be toggled; the loop of `set_mem_rw` /
`set_mem_ro` stops at `addr <= vaddr` and never consults `len`, so only
page 0 is toggled and page 4096 keeps its previous protection bit. -/
theorem c2_second_page_not_toggled :
    set_mem_rw 4090 12 (fun _ => false) 0 = true ∧
    set_mem_rw 4090 12 (fun _ => false) 4096 = false ∧
    set_mem_ro 4090 12 (fun _ => true) 4096 = true := by
  refine ⟨rfl, rfl, rfl⟩

/-- Claim C8: `build_jump` is a pure function of the target whose output is
always the 12-byte template with the 8 little-endian bytes of the 64-bit
target spliced at offset `JUMP_ADDR_POS = 2` — for every target, including
ones with the high bit set. -/
theorem c8_build_jump_fixed_width (target : Nat) :
    build_jump target
      = [0x48, 0xb8] ++ leBytes8 (target % 2 ^ 64) ++ [0xff, 0xe0] ∧
    (build_jump target).length = OVERRIDE_JUMP_SIZE := by
  constructor <;> rfl

/-- Claim C10: `symbol_is_overridden` is total over `NULL` handles — it
returns `false` on a `NULL` instance without dereferencing it, and exactly the
`installed` flag otherwise. -/
theorem c10_is_overridden_total :
    symbol_is_overridden none = false ∧
    ∀ sym : override_symbol_inst, symbol_is_overridden (some sym) = sym.installed :=
  ⟨rfl, fun _ => rfl⟩

/-- Claim C3: the syscall registry is first-write-wins.  With the table
cached and an in-bounds number whose registry entry is still empty and whose
table cell holds the (non-`NULL`) handler `O`: the first override records
`O`, a second override with a different pointer leaves the record at `O`, and
a subsequent restore writes `O` — the pre-first-override value, not `P1` —
back into the table cell. -/
theorem c3_registry_first_write_wins (f1 f2 : Nat) (st : SysState) (n P1 P2 O : Nat)
    (htp : st.syscall_table_ptr ≠ 0) (hn : n ≤ NR_syscall_max)
    (hreg : st.overridden_syscall n = 0)
    (hO : st.mem (table_cell st.syscall_table_ptr n) = O) (hO0 : O ≠ 0) :
    ((override_syscall f1 st n P1).map fun r => r.2.2.overridden_syscall n)
      = some O ∧
    (((override_syscall f1 st n P1).bind fun r => override_syscall f2 r.2.2 n P2).map
        fun r => r.2.2.overridden_syscall n) = some O ∧
    (((override_syscall f1 st n P1).bind fun r => override_syscall f2 r.2.2 n P2).map
        fun r => (restore_syscall r.2.2 n).2.mem (table_cell st.syscall_table_ptr n))
      = some O := by
  have t1 := override_syscall_body_tp st n P1 hn
  have r1 := override_syscall_body_reg_fresh st n P1 hn hreg
  rw [hO] at r1
  have htp1 : (override_syscall_body st n P1).2.2.syscall_table_ptr ≠ 0 := by
    rw [t1]; exact htp
  have hne1 : (override_syscall_body st n P1).2.2.overridden_syscall n ≠ 0 := by
    rw [r1]; exact hO0
  have r2 := override_syscall_body_reg_kept (override_syscall_body st n P1).2.2 n P2 hn hne1
  rw [r1] at r2
  have t2 := override_syscall_body_tp (override_syscall_body st n P1).2.2 n P2 hn
  rw [t1] at t2
  have htp2 :
      (override_syscall_body (override_syscall_body st n P1).2.2 n P2).2.2.syscall_table_ptr
        ≠ 0 := by
    rw [t2]; exact htp
  have hne2 :
      (override_syscall_body (override_syscall_body st n P1).2.2 n P2).2.2.overridden_syscall n
        ≠ 0 := by
    rw [r2]; exact hO0
  have r3 := restore_syscall_mem
      (override_syscall_body (override_syscall_body st n P1).2.2 n P2).2.2 n htp2 hn hne2
  rw [t2, r2] at r3
  rw [override_syscall_cached f1 st n P1 htp]
  simp only [Option.some_bind, Option.map_some']
  rw [override_syscall_cached f2 (override_syscall_body st n P1).2.2 n P2 htp1]
  simp only [Option.some_bind, Option.map_some']
  exact ⟨congrArg some r1, congrArg some r2, congrArg some r3⟩

/-- Witness for C3 at a concrete state: table cached at 16384, slot 1 holds
the handler 111, overrides with 222 then 333, restore reinstates 111. -/
theorem c3_witness :
    stC3w.overridden_syscall 1 = 0 ∧
    (((override_syscall 0 stC3w 1 222).map fun r => r.2.2.overridden_syscall 1)
        = some 111 ∧
     (((override_syscall 0 stC3w 1 222).bind fun r => override_syscall 0 r.2.2 1 333).map
        fun r => r.2.2.overridden_syscall 1) = some 111 ∧
     (((override_syscall 0 stC3w 1 222).bind fun r => override_syscall 0 r.2.2 1 333).map
        fun r => (restore_syscall r.2.2 1).2.mem (table_cell stC3w.syscall_table_ptr 1))
        = some 111) :=
  ⟨rfl, c3_registry_first_write_wins 0 0 stC3w 1 222 333 111 (by decide) (by decide) rfl rfl
    (by decide)⟩

/-- Claim C6, counterexample: after overriding syscall 1 (whose slot held
111) with `P1 = 222`, a second `override_syscall` with `P2 = 333` reports
111 — the ground-truth original — and not the previous slot pointer
`P1 = 222` claimed by the spec sentence. -/
theorem c6_counterexample :
    (((override_syscall 0 stC6w 1 222).bind fun r => override_syscall 0 r.2.2 1 333).map
        fun r => r.2.1) = some (some 111) ∧
    (111 : Nat) ≠ 222 := by
  refine ⟨rfl, by decide⟩

/-- Claim C6 as amended: `override_syscall` reports the registry's
ground-truth pointer.  On the first override of a number it returns the
pointer in the slot immediately before the call; a second override of the
same number returns that same pre-first-override pointer again. -/
theorem c6_amended_returns_ground_truth (f1 f2 : Nat) (st : SysState) (n P1 P2 O : Nat)
    (htp : st.syscall_table_ptr ≠ 0) (hn : n ≤ NR_syscall_max)
    (hreg : st.overridden_syscall n = 0)
    (hO : st.mem (table_cell st.syscall_table_ptr n) = O) (hO0 : O ≠ 0) :
    ((override_syscall f1 st n P1).map fun r => r.2.1) = some (some O) ∧
    (((override_syscall f1 st n P1).bind fun r => override_syscall f2 r.2.2 n P2).map
        fun r => r.2.1) = some (some O) := by
  have o1 := override_syscall_body_out_fresh st n P1 hn hreg
  rw [hO] at o1
  have t1 := override_syscall_body_tp st n P1 hn
  have r1 := override_syscall_body_reg_fresh st n P1 hn hreg
  rw [hO] at r1
  have htp1 : (override_syscall_body st n P1).2.2.syscall_table_ptr ≠ 0 := by
    rw [t1]; exact htp
  have hne1 : (override_syscall_body st n P1).2.2.overridden_syscall n ≠ 0 := by
    rw [r1]; exact hO0
  have o2 := override_syscall_body_out_kept (override_syscall_body st n P1).2.2 n P2 hn hne1
  rw [r1] at o2
  rw [override_syscall_cached f1 st n P1 htp]
  simp only [Option.some_bind, Option.map_some']
  rw [override_syscall_cached f2 (override_syscall_body st n P1).2.2 n P2 htp1]
  simp only [Option.map_some']
  exact ⟨congrArg some o1, congrArg some o2⟩

/-- Witness for the amended C6 at the concrete state `stC6w`. -/
theorem c6_witness :
    stC6w.overridden_syscall 1 = 0 ∧
    (((override_syscall 0 stC6w 1 222).map fun r => r.2.1) = some (some 111) ∧
     (((override_syscall 0 stC6w 1 222).bind fun r => override_syscall 0 r.2.2 1 333).map
        fun r => r.2.1) = some (some 111)) :=
  ⟨rfl, c6_amended_returns_ground_truth 0 0 stC6w 1 222 333 111 (by decide) (by decide) rfl
    rfl (by decide)⟩

/-- Claim C7, counterexample: with the table not yet located and location
failing (nothing resolvable), both calls with the out-of-bounds number
`NR_syscall_max + 1` return `-EFAULT` (table-not-found), not `-EINVAL`
(invalid-syscall-number) — the number validation is *not* performed
regardless of whether the table base has been located. -/
theorem c7_counterexample :
    ((override_syscall 0 stC7w (NR_syscall_max + 1) 5).map fun r => r.1)
      = some (-EFAULT) ∧
    (restore_syscall stC7w (NR_syscall_max + 1)).1 = -EFAULT ∧
    -EFAULT ≠ -EINVAL := by
  refine ⟨rfl, rfl, by decide⟩

/-- Claim C7 as amended: once the table base is available (cached, or after a
successful locate), `override_syscall` and `restore_syscall` fail with
`-EINVAL` on every number beyond the declared maximum and leave the whole
state — table memory, registry and protection — unchanged. -/
theorem c7_amended_bounds_check (fuel : Nat) (st : SysState) (n P : Nat)
    (htp : st.syscall_table_ptr ≠ 0) (hn : NR_syscall_max < n) :
    override_syscall fuel st n P = some (-EINVAL, none, st) ∧
    (restore_syscall st n).1 = -EINVAL ∧ (restore_syscall st n).2 = st := by
  unfold override_syscall override_syscall_body restore_syscall
  simp [htp, hn]

/-- Witness for the amended C7: cached table at 16384, number 314. -/
theorem c7_witness :
    NR_syscall_max < 314 ∧
    (override_syscall 0 stC7c 314 5 = some (-EINVAL, none, stC7c) ∧
     (restore_syscall stC7c 314).1 = -EINVAL ∧
     (restore_syscall stC7c 314).2 = stC7c) :=
  ⟨by decide, c7_amended_bounds_check 0 stC7c 314 5 (by decide) (by decide)⟩

/-- Claim C5, code-bug evidence: the fallback scan does not terminate with
table-not-found when no matching table exists.  The loop counter is a
wrapping 64-bit `unsigned long` and the guard `i < ULONG_MAX` can only fail
at `i = 2 ^ 64 - 1 ≡ 7 (mod 8)`; the scan starts at the lowest resolved
handler address, and from any start whose residue mod 8 is not 7 — in
particular from every 8-aligned function address — the counter wraps at
`2 ^ 64` and never reaches the exit, so for every number of iterations
`locate()` has not returned.  The table-not-found exit of the source (lines
458-460) is unreachable on such inputs, showing the claimed termination is
the intent and the loop guard the slip.  (The probe-resolution half of the
claim does hold: `find_sys_call_table` returns `-EFAULT` before the scan.) -/
theorem c5_locator_never_returns (fuel : Nat) (st : SysState)
    (hsct : st.kallsyms ("sys_call_table") = 0)
    (hcl : st.kallsyms ("sys_close") ≠ 0) (hop : st.kallsyms ("sys_open") ≠ 0)
    (hrd : st.kallsyms ("sys_read") ≠ 0) (hwr : st.kallsyms ("sys_write") ≠ 0)
    (hmatch : ∀ j, sct_match st.mem (st.kallsyms ("sys_close")) (st.kallsyms ("sys_open"))
        (st.kallsyms ("sys_read")) (st.kallsyms ("sys_write")) j = false)
    (hlt : scan_start (st.kallsyms ("sys_close")) (st.kallsyms ("sys_open"))
        (st.kallsyms ("sys_read")) (st.kallsyms ("sys_write")) < 2 ^ 64)
    (hres : scan_start (st.kallsyms ("sys_close")) (st.kallsyms ("sys_open"))
        (st.kallsyms ("sys_read")) (st.kallsyms ("sys_write")) % 8 ≠ 7) :
    find_sys_call_table fuel st = none := by
  unfold find_sys_call_table
  simp [hsct, hcl, hop, hrd, hwr,
    scan_loop_never_returns st.mem _ _ _ _ hmatch fuel _ hlt hres]

/-- Witness for C5: `sys_call_table` unresolvable, the probes resolve to the
8-aligned addresses 4096/4104/4112/4120, memory holds no matching table; the
locator has not returned within (for instance) five iterations. -/
theorem c5_witness :
    stC5w.kallsyms ("sys_call_table") = 0 ∧
    stC5w.kallsyms ("sys_close") ≠ 0 ∧
    (∀ j, sct_match stC5w.mem (stC5w.kallsyms ("sys_close")) (stC5w.kallsyms ("sys_open"))
        (stC5w.kallsyms ("sys_read")) (stC5w.kallsyms ("sys_write")) j = false) ∧
    scan_start (stC5w.kallsyms ("sys_close")) (stC5w.kallsyms ("sys_open"))
        (stC5w.kallsyms ("sys_read")) (stC5w.kallsyms ("sys_write")) % 8 ≠ 7 ∧
    find_sys_call_table 5 stC5w = none :=
  ⟨rfl, by decide, fun j => rfl, by decide,
   c5_locator_never_returns 5 stC5w rfl (by decide) (by decide) (by decide) (by decide)
     (fun j => rfl) (by decide) (by decide)⟩

/-- Claim C4: round trip.  For every instance produced by
`get_ov_symbol_instance`, running `__enable_symbol_override` and then
`__disable_symbol_override` leaves the `OVERRIDE_JUMP_SIZE` bytes at the
symbol's address byte-for-byte equal to the original code the instance
captured, which itself equals the memory content at creation time. -/
theorem c4_round_trip (st : SymState) (name : String) (newp : Nat)
    (sym : override_symbol_inst)
    (h : get_ov_symbol_instance st name newp = some sym) :
    readBytes
        (disable_symbol_override (enable_symbol_override sym st).1
          (enable_symbol_override sym st).2.1).2.1.mem
        sym.org_sym_ptr OVERRIDE_JUMP_SIZE
      = (enable_symbol_override sym st).1.org_sym_code ∧
    (enable_symbol_override sym st).1.org_sym_code
      = readBytes st.mem sym.org_sym_ptr OVERRIDE_JUMP_SIZE := by
  by_cases h0 : st.kallsyms name = 0
  · simp [get_ov_symbol_instance, h0] at h
  · simp [get_ov_symbol_instance, h0] at h
    subst h
    show readBytes
        (writeBytes (writeBytes st.mem (st.kallsyms name) (build_jump newp))
          (st.kallsyms name) (readBytes st.mem (st.kallsyms name) OVERRIDE_JUMP_SIZE))
        (st.kallsyms name) OVERRIDE_JUMP_SIZE
      = readBytes st.mem (st.kallsyms name) OVERRIDE_JUMP_SIZE ∧
      readBytes st.mem (st.kallsyms name) OVERRIDE_JUMP_SIZE
      = readBytes st.mem (st.kallsyms name) OVERRIDE_JUMP_SIZE
    exact ⟨readBytes_writeBytes_of_length _ _ _ _ (readBytes_length _ _ _), rfl⟩

/-- Witness for C4 at a concrete state: symbol at address 100, memory bytes
pairwise distinct around it. -/
theorem c4_witness :
    get_ov_symbol_instance stC4w ("tgt") 77 = some symC4w ∧
    (readBytes
        (disable_symbol_override (enable_symbol_override symC4w stC4w).1
          (enable_symbol_override symC4w stC4w).2.1).2.1.mem
        symC4w.org_sym_ptr OVERRIDE_JUMP_SIZE
      = (enable_symbol_override symC4w stC4w).1.org_sym_code ∧
     (enable_symbol_override symC4w stC4w).1.org_sym_code
      = readBytes stC4w.mem symC4w.org_sym_ptr OVERRIDE_JUMP_SIZE) :=
  ⟨rfl, c4_round_trip stC4w ("tgt") 77 symC4w rfl⟩

/-- Claim C9: idempotence.  Enabling a not-yet-installed instance twice in a
row performs exactly one write to the target memory (the second call is a
no-op success), and disabling any instance twice in a row performs at most
one write to the target memory. -/
theorem c9_enable_disable_idempotent (sym : override_symbol_inst) (st : SymState)
    (sym2 : override_symbol_inst) (st2 : SymState) (h : sym.installed = false) :
    (enable_symbol_override sym st).2.2 = 1 ∧
    (enable_symbol_override (enable_symbol_override sym st).1
        (enable_symbol_override sym st).2.1).2.2 = 0 ∧
    (disable_symbol_override sym2 st2).2.2 +
      (disable_symbol_override (disable_symbol_override sym2 st2).1
          (disable_symbol_override sym2 st2).2.1).2.2 ≤ 1 := by
  refine ⟨?_, ?_, ?_⟩
  · simp [enable_symbol_override, h]
  · simp [enable_symbol_override, h]
  · cases hi : sym2.installed
    · simp [disable_symbol_override, hi]
    · simp [disable_symbol_override, hi]

/-- Witness for C9: a freshly created instance enabled twice, and an
installed instance disabled twice. -/
theorem c9_witness :
    symC9.installed = false ∧
    ((enable_symbol_override symC9 stC9w).2.2 = 1 ∧
     (enable_symbol_override (enable_symbol_override symC9 stC9w).1
        (enable_symbol_override symC9 stC9w).2.1).2.2 = 0 ∧
     (disable_symbol_override symC9d stC9w).2.2 +
       (disable_symbol_override (disable_symbol_override symC9d stC9w).1
          (disable_symbol_override symC9d stC9w).2.1).2.2 ≤ 1) :=
  ⟨rfl, c9_enable_disable_idempotent symC9 stC9w symC9d stC9w rfl⟩

end RedPill
